import Mathlib

/-!
Verification of the multi-tenant authorization and session-scoping subsystem
of the alliance-436-admin application.

The definitions below are a shallow embedding of:
  * `src/app/services/SessionService.server.ts` (session store access, identity
    resolution, role gate),
  * the choose-org route (`src/unnamed/part_000`): its `action`, and the
    redirect-target normalization in the rendered form,
  * `src/app/services.server/mail.tsx` (the three email senders).

Conventions of the embedding:
  * a thrown Remix `Response` (a `redirect`, `unauthorized` or `forbidden`)
    becomes the error side of an `Except`;
  * the Prisma database becomes an explicit `DB` value threaded through the
    functions, and every mutation returns the new `DB`;
  * the signed session cookie becomes a `SessionData` record carried on the
    `Request`; committing a session is represented by returning the session
    value attached to the response.
-/

namespace App

/-- The Prisma `UserRole` enum. -/
inductive UserRole
  | USER
  | ADMIN
  | SUPERADMIN
deriving DecidableEq, Repr

/-- A stored user: the fields of the Prisma `User` model that the session
service reads (`id` and the global `role`). -/
structure User where
  id : String
  role : UserRole
deriving DecidableEq, Repr

/-- A stored membership: the join entity between user and organization,
with its per-org `role` and the `isDefault` flag. -/
structure Membership where
  userId : String
  orgId : String
  role : UserRole
  isDefault : Bool
deriving DecidableEq, Repr

/-- The slice of the Prisma database the embedded functions touch. -/
structure DB where
  users : List User
  memberships : List Membership
deriving DecidableEq, Repr

/-- `UserService.getUserById` / `db.user.findUnique`: first user with the
given id, or `none`. -/
def findUser (db : DB) (userId : String) : Option User :=
  db.users.find? (fun u => u.id == userId)

/-- `db.membership.findUniqueOrThrow({ where: { userId_orgId } })`, as a
total lookup; the caller turns `none` into the thrown not-found error. -/
def findMembership (db : DB) (userId orgId : String) : Option Membership :=
  db.memberships.find? (fun m => m.userId == userId && m.orgId == orgId)

/-- The session payload: the two semantically important keys `userId` and
`organizationId` of the signed cookie's key/value bag. -/
structure SessionData where
  userId? : Option String
  organizationId? : Option String
deriving DecidableEq, Repr

/-- The parts of a request URL the embedded code reads: `new URL(request.url)`
gives `origin` and `pathname`. -/
structure Url where
  origin : String
  pathname : String
deriving DecidableEq, Repr

/-- An inbound request: its URL and the session decoded from its cookie
(`sessionStorage.getSession` returns an empty session when the cookie is
absent or fails verification, so decoding is total). -/
structure Request where
  url : Url
  session : SessionData
deriving DecidableEq, Repr

/-- A `Response` thrown by the session service instead of returning:
either a `redirect(location)` (with `destroysSession = true` when the
response's `Set-Cookie` header destroys the session, as in `logout`), or the
`unauthorized({...})` helper, or the `forbidden({...})` helper. -/
inductive ThrownResponse
  | redirect (location : String) (destroysSession : Bool)
  | unauthorized
  | forbidden
deriving DecidableEq, Repr

/-- `Session.logout`: a redirect to `/login` whose headers destroy the
session cookie. -/
def logoutResponse : ThrownResponse :=
  ThrownResponse.redirect "/login" true

/-- `Session.getUserId`: reads the `userId` key out of the session. -/
def getUserId (req : Request) : Option String :=
  req.session.userId?

/-- `Session.getUser`: `null` when the session has no `userId`; otherwise
looks the user up, returning it when found and throwing `logout` (redirect
to `/login`, session destroyed) when the id no longer resolves. -/
def getUser (db : DB) (req : Request) : Except ThrownResponse (Option User) :=
  match getUserId req with
  | none => Except.ok none
  | some userId =>
    match findUser db userId with
    | some user => Except.ok (some user)
    | none => Except.error logoutResponse

/-- One hex digit (uppercase), for percent-encoding. -/
def hexDigit (n : Nat) : Char :=
  if n < 10 then Char.ofNat (48 + n) else Char.ofNat (55 + n)

/-- `application/x-www-form-urlencoded` encoding of one character, as
`URLSearchParams.toString` performs it. Modelled for ASCII characters (the
only ones the embedded call sites produce): ASCII alphanumerics and
`*`, `-`, `.`, `_` pass through, space becomes `+`, every other character
becomes `%XX`. -/
def formUrlEncodeChar (c : Char) : String :=
  if c.isAlphanum || c = '*' || c = '-' || c = '.' || c = '_' then
    String.singleton c
  else if c = ' ' then
    "+"
  else
    "%" ++ String.singleton (hexDigit (c.toNat / 16)) ++
      String.singleton (hexDigit (c.toNat % 16))

/-- `application/x-www-form-urlencoded` encoding of a string (ASCII). -/
def formUrlEncode (s : String) : String :=
  String.join (s.toList.map formUrlEncodeChar)

/-- `new URLSearchParams(pairs).toString()`. -/
def serializeSearchParams (pairs : List (String × String)) : String :=
  String.intercalate "&"
    (pairs.map (fun p => formUrlEncode p.1 ++ "=" ++ formUrlEncode p.2))

/-- `Session.requireUserId` with an explicit `redirectTo` argument: returns
the session's user id, or throws a redirect to
`/login?redirectTo=<encoded>` when the id is absent. The source guard is
the JavaScript falsy test `!userId`, so an empty-string id also fails. -/
def requireUserIdWith (req : Request) (redirectTo : String) :
    Except ThrownResponse String :=
  match getUserId req with
  | some userId =>
    if userId = "" then
      Except.error (ThrownResponse.redirect
        ("/login?" ++ serializeSearchParams [("redirectTo", redirectTo)]) false)
    else
      Except.ok userId
  | none =>
    Except.error (ThrownResponse.redirect
      ("/login?" ++ serializeSearchParams [("redirectTo", redirectTo)]) false)

/-- `Session.requireUserId` at its default `redirectTo`, which is
`new URL(request.url).pathname`. -/
def requireUserId (req : Request) : Except ThrownResponse String :=
  requireUserIdWith req req.url.pathname

/-- `Session.requireUserByRole(request, allowedRoles?)`: resolves the user id
(redirecting to login when absent), looks the user up, then runs the guard
chain of the source: superadmin override first; then, when `allowedRoles`
was given non-empty, membership in it (throwing `unauthorized` on a miss);
then the default set `["USER", "ADMIN"]`, throwing `forbidden` otherwise.
An unresolvable user falls through every `user && ...` guard to
`forbidden`. -/
def requireUserByRole (db : DB) (req : Request)
    (allowedRoles : Option (List UserRole)) : Except ThrownResponse User :=
  let defaultAllowedRoles : List UserRole := [UserRole.USER, UserRole.ADMIN]
  match requireUserId req with
  | Except.error e => Except.error e
  | Except.ok userId =>
    match findUser db userId with
    | some user =>
      if user.role = UserRole.SUPERADMIN then
        Except.ok user
      else
        match allowedRoles with
        | some roles =>
          if roles.length > 0 then
            if user.role ∈ roles then Except.ok user
            else Except.error ThrownResponse.unauthorized
          else if user.role ∈ defaultAllowedRoles then Except.ok user
          else Except.error ThrownResponse.forbidden
        | none =>
          if user.role ∈ defaultAllowedRoles then Except.ok user
          else Except.error ThrownResponse.forbidden
    | none => Except.error ThrownResponse.forbidden

/-- `Session.requireUser`: the role gate with no `allowedRoles` argument. -/
def requireUser (db : DB) (req : Request) : Except ThrownResponse User :=
  requireUserByRole db req none

/-- `Session.requireAdmin`: the role gate at `["ADMIN"]`. -/
def requireAdmin (db : DB) (req : Request) : Except ThrownResponse User :=
  requireUserByRole db req (some [UserRole.ADMIN])

/-- `Session.requireSuperAdmin`: the role gate at `["SUPERADMIN"]`. -/
def requireSuperAdmin (db : DB) (req : Request) : Except ThrownResponse User :=
  requireUserByRole db req (some [UserRole.SUPERADMIN])

/-! ## The choose-org route (`src/unnamed/part_000`) -/

/-- The data of a choose-org form submission after Zod parsing:
`orgId` (a string), optional `redirectTo`, and the checkbox
`rememberSelection`. The validator's only constraint beyond shape is
`orgId.min(1)`, modelled in the action as the `orgId = ""` check. -/
structure OrgFormData where
  orgId : String
  redirectTo : Option String
  rememberSelection : Bool
deriving DecidableEq, Repr

/-- `db.membership.update({ data: { isDefault: true }, where: { userId_orgId } })`:
sets `isDefault` on the membership matching the pair, leaving every other
row untouched. -/
def dbSetDefaultTrue (db : DB) (userId orgId : String) : DB :=
  { db with
    memberships := db.memberships.map (fun m =>
      if m.userId = userId ∧ m.orgId = orgId then { m with isDefault := true }
      else m) }

/-- `db.membership.updateMany({ where: { userId }, data: { isDefault: false } })`:
clears `isDefault` on every membership of the user. -/
def dbClearDefaults (db : DB) (userId : String) : DB :=
  { db with
    memberships := db.memberships.map (fun m =>
      if m.userId = userId then { m with isDefault := false } else m) }

/-- `new URL(input, origin).toString()`, modelled for the relative-path
inputs the route produces: a root-relative path (first character `/`) is
appended to the origin, the empty string resolves to the origin's root, and
any other string resolves against the origin's root path. -/
def resolveUrl (input : String) (origin : String) : String :=
  if input.toList.head? = some '/' then origin ++ input
  else if input = "" then origin ++ "/"
  else origin ++ "/" ++ input

/-- The possible outcomes of the choose-org `action`. -/
inductive ActionResult
  /-- `requireUserId` threw (redirect to login). -/
  | thrownResponse (t : ThrownResponse)
  /-- the Zod validator failed; `validationError(result.error)` returned. -/
  | validationFailure
  /-- `db.membership.findUniqueOrThrow` threw: the submitted org id is not
  one of the user's memberships (the spec's `InvalidOrgSelection`). -/
  | membershipNotFound
  /-- the redirect response: its `Location` and the session committed on its
  `Set-Cookie` header. -/
  | redirectResponse (location : String) (session : SessionData)
deriving DecidableEq, Repr

/-- The choose-org route's `action`: requires a user id, validates the form,
checks the submitted org is one of the user's memberships, then either sets
that membership's `isDefault` (when remembering) or clears `isDefault` on
all of the user's memberships (when not), writes `organizationId` into the
session and redirects to `new URL(redirectTo ?? "/", url.origin)` with the
committed session. Returns the response paired with the database state after
the action. -/
def chooseOrgAction (db : DB) (req : Request) (form : OrgFormData) :
    ActionResult × DB :=
  match requireUserId req with
  | Except.error e => (ActionResult.thrownResponse e, db)
  | Except.ok userId =>
    if form.orgId = "" then
      (ActionResult.validationFailure, db)
    else
      match findMembership db userId form.orgId with
      | none => (ActionResult.membershipNotFound, db)
      | some _ =>
        let db' :=
          if form.rememberSelection then dbSetDefaultTrue db userId form.orgId
          else dbClearDefaults db userId
        let session' := { req.session with organizationId? := some form.orgId }
        let location := resolveUrl (form.redirectTo.getD "/") req.url.origin
        (ActionResult.redirectResponse location session', db')

/-- The value the page (`LoginPage`) puts in the hidden `redirectTo` field:
`searchParams.get("redirectTo") || "/"`, then
`redirectTo === "/choose-org" ? "/" : redirectTo`. This is where the
selection screen normalizes a self-redirect, before submission. -/
def hiddenRedirectToValue (searchRedirectTo : Option String) : String :=
  let redirectTo :=
    match searchRedirectTo with
    | some s => if s = "" then "/" else s
    | none => "/"
  if redirectTo = "/choose-org" then "/" else redirectTo

/-! ## The email senders (`src/app/services.server/mail.tsx`) -/

/-- The fields of the Prisma `Organization` model the email senders read. -/
structure Organization where
  id : String
  name : String
  host : String
  subdomain : Option String
  replyToEmail : String
deriving DecidableEq, Repr

/-- A stored contact's first name, keyed by the owning user's username, for
`sendPasswordSetupEmail`'s user lookup. -/
structure ContactRecord where
  username : String
  firstName : String
deriving DecidableEq, Repr

/-- The collaborators of the email senders: the organization and user
tables reached through `findUniqueOrThrow`, and the outcome the `sendEmail`
integration produces (`true` = the send resolves, `false` = it rejects). -/
structure MailEnv where
  orgs : List Organization
  contacts : List ContactRecord
  sendSucceeds : Bool
deriving DecidableEq, Repr

/-- `db.organization.findUniqueOrThrow({ where: { id } })` as a lookup. -/
def findOrg (env : MailEnv) (orgId : String) : Option Organization :=
  env.orgs.find? (fun o => o.id == orgId)

/-- `db.user.findUniqueOrThrow({ where: { username }, select: { contact: ... } })`
as a lookup. -/
def findContactByUsername (env : MailEnv) (username : String) :
    Option ContactRecord :=
  env.contacts.find? (fun c => c.username == username)

/-- The base URL of an organization's password page:
`https://${org.subdomain ? org.subdomain + "." : ""}${org.host}` with path
`/passwords/new`. -/
def passwordUrlBase (org : Organization) : String :=
  "https://" ++ (match org.subdomain with
    | some sub => sub ++ "."
    | none => "") ++ org.host ++ "/passwords/new"

/-- What a caller of an email sender observes. -/
inductive MailError
  | orgNotFound
  | userNotFound
  | sendFailed
deriving DecidableEq, Repr

/-- Outcome of calling one of the email senders: the `{ data }` return, the
`{ error }` return from a `catch` block (error captured, reported to Sentry,
not rethrown), or an exception escaping to the caller. -/
inductive MailOutcome
  | success
  | captured (e : MailError)
  | thrown (e : MailError)
deriving DecidableEq, Repr

/-- Whether the outcome is an exception escaping to the caller. -/
def MailOutcome.isThrown : MailOutcome → Bool
  | MailOutcome.thrown _ => true
  | _ => false

/-- `sendPasswordResetEmail`: the organization lookup and URL construction
run before the `try` block, so their failures escape to the caller; only
the `sendEmail` call is inside the `try`, whose `catch` captures the error
and returns `{ error }`. -/
def sendPasswordResetEmail (env : MailEnv) (email : String) (token : String)
    (orgId : String) : MailOutcome :=
  match findOrg env orgId with
  | none => MailOutcome.thrown MailError.orgNotFound
  | some org =>
    let _url := passwordUrlBase org ++ "?token=" ++ formUrlEncode token ++
      "&isReset=true"
    let _from := org.name ++ " <" ++ org.replyToEmail ++ "@" ++ org.host ++ ">"
    let _to := email
    if env.sendSucceeds then MailOutcome.success
    else MailOutcome.captured MailError.sendFailed

/-- `sendPasswordSetupEmail`: the organization lookup, the user lookup and
the template render run before the `try` block, so their failures escape to
the caller; only the `sendEmail` call is inside the `try`. -/
def sendPasswordSetupEmail (env : MailEnv) (email : String) (token : String)
    (orgId : String) : MailOutcome :=
  match findOrg env orgId with
  | none => MailOutcome.thrown MailError.orgNotFound
  | some org =>
    match findContactByUsername env email with
    | none => MailOutcome.thrown MailError.userNotFound
    | some _contact =>
      let _url := passwordUrlBase org ++ "?token=" ++ formUrlEncode token
      let _from := org.name ++ " <" ++ org.replyToEmail ++ "@" ++ org.host ++ ">"
      if env.sendSucceeds then MailOutcome.success
      else MailOutcome.captured MailError.sendFailed

/-- `sendReimbursementRequestUpdateEmail`: here the `try` block wraps the
organization lookup as well as the `sendEmail` call, so every failure is
captured and returned as `{ error }`. -/
def sendReimbursementRequestUpdateEmail (env : MailEnv) (email : String)
    (orgId : String) : MailOutcome :=
  match findOrg env orgId with
  | none => MailOutcome.captured MailError.orgNotFound
  | some org =>
    let _from := org.name ++ " <" ++ org.replyToEmail ++ "@" ++ org.host ++ ">"
    let _to := email
    if env.sendSucceeds then MailOutcome.success
    else MailOutcome.captured MailError.sendFailed

/-! ## Derived observations -/

/-- Number of memberships of a user currently flagged `isDefault`. -/
def defaultCount (db : DB) (userId : String) : Nat :=
  db.memberships.countP (fun m => m.userId == userId && m.isDefault)

/-! ## Concrete fixtures used by counterexamples and witnesses -/

/-- A plain user. -/
def demoUser : User := { id := "u1", role := UserRole.USER }

/-- A superadmin. -/
def demoSuper : User := { id := "u2", role := UserRole.SUPERADMIN }

/-- `demoUser`'s membership in org `A`, not the default. -/
def memA : Membership :=
  { userId := "u1", orgId := "A", role := UserRole.ADMIN, isDefault := false }

/-- `demoUser`'s membership in org `B`, currently the remembered default. -/
def memB : Membership :=
  { userId := "u1", orgId := "B", role := UserRole.USER, isDefault := true }

/-- A small database: two users, `demoUser` belonging to orgs `A` and `B`. -/
def demoDB : DB := { users := [demoUser, demoSuper], memberships := [memA, memB] }

/-- A request authenticated as `demoUser`. -/
def demoReq : Request :=
  { url := { origin := "https://example.com", pathname := "/choose-org" },
    session := { userId? := some "u1", organizationId? := none } }

/-- A request authenticated as `demoSuper`. -/
def demoReqSuper : Request :=
  { url := { origin := "https://example.com", pathname := "/choose-org" },
    session := { userId? := some "u2", organizationId? := none } }

/-- A request with no session user id. -/
def demoReqAnon : Request :=
  { url := { origin := "https://example.com", pathname := "/accounts/42" },
    session := { userId? := none, organizationId? := none } }

/-- A request whose session user id resolves to no stored user. -/
def demoReqDangling : Request :=
  { url := { origin := "https://example.com", pathname := "/accounts/42" },
    session := { userId? := some "ghost", organizationId? := none } }

/-- The remember-me form submission used by concrete instances: org `A`,
no explicit redirect target, remember checked. -/
def demoFormRemember : OrgFormData :=
  { orgId := "A", redirectTo := none, rememberSelection := true }

/-- The forget form submission used by concrete instances: org `A`,
no explicit redirect target, remember unchecked. -/
def demoFormForget : OrgFormData :=
  { orgId := "A", redirectTo := none, rememberSelection := false }

/-! ## Theorems -/

/-- C1 counterexample: `demoUser` already remembers org `B`
(`memB.isDefault = true`) and submits org `A` with remember checked. The
claim says that afterwards exactly one membership of the user is the
default, namely `A`'s; but the action leaves `B`'s flag set, so the user
ends with two default memberships. -/
theorem C1_counterexample :
    defaultCount (chooseOrgAction demoDB demoReq demoFormRemember).2 "u1" = 2 ∧
      (findMembership (chooseOrgAction demoDB demoReq demoFormRemember).2
          "u1" "B").map Membership.isDefault = some true := by
  decide

/-- C1 (amended): after the org-selection action runs with remember = true
for an org the user belongs to, the memberships table keeps its shape, every
membership matching `(userId, orgId)` has `isDefault = true`, and every
other membership — including a previously remembered default of the same
user — is unchanged. -/
theorem chooseOrg_remember_only_sets_selected
    (db : DB) (req : Request) (form : OrgFormData) (userId : String)
    (m0 : Membership)
    (huser : requireUserId req = Except.ok userId)
    (horg : form.orgId ≠ "")
    (hmem : findMembership db userId form.orgId = some m0)
    (hrem : form.rememberSelection = true) :
    (chooseOrgAction db req form).2.memberships.length =
        db.memberships.length ∧
      ∀ i, i < db.memberships.length →
        (((db.memberships.getD i m0).userId = userId ∧
            (db.memberships.getD i m0).orgId = form.orgId) →
          ((chooseOrgAction db req form).2.memberships.getD i m0).isDefault =
            true) ∧
        (¬((db.memberships.getD i m0).userId = userId ∧
            (db.memberships.getD i m0).orgId = form.orgId) →
          (chooseOrgAction db req form).2.memberships.getD i m0 =
            db.memberships.getD i m0) := by
  have hact : (chooseOrgAction db req form).2 =
      dbSetDefaultTrue db userId form.orgId := by
    simp [chooseOrgAction, huser, horg, hmem, hrem]
  rw [hact]
  unfold dbSetDefaultTrue
  refine ⟨by simp, ?_⟩
  intro i hi
  have hmap : (db.memberships.map (fun m =>
      if m.userId = userId ∧ m.orgId = form.orgId then
        { m with isDefault := true } else m)).getD i m0 =
      (fun m => if m.userId = userId ∧ m.orgId = form.orgId then
        { m with isDefault := true } else m) (db.memberships.getD i m0) := by
    rw [List.getD_eq_getElem _ _ (by simpa using hi),
      List.getD_eq_getElem _ _ hi, List.getElem_map]
  constructor
  · intro hsel
    simp only [hmap]
    rw [if_pos hsel]
  · intro hsel
    simp only [hmap]
    rw [if_neg hsel]

/-- C1 witness: the amended theorem applied to the concrete fixture; the
selected membership (index 0, org `A`) ends up default and the other
membership (index 1, org `B`) is returned unchanged — still default. -/
theorem chooseOrg_remember_only_sets_selected_witness :
    (chooseOrgAction demoDB demoReq demoFormRemember).2.memberships.length =
        demoDB.memberships.length ∧
      ((chooseOrgAction demoDB demoReq
          demoFormRemember).2.memberships.getD 0 memA).isDefault = true ∧
        (chooseOrgAction demoDB demoReq
            demoFormRemember).2.memberships.getD 1 memA =
          demoDB.memberships.getD 1 memA :=
  have h := chooseOrg_remember_only_sets_selected demoDB demoReq
    demoFormRemember "u1" memA rfl (by decide) rfl rfl
  ⟨h.1, (h.2 0 (by decide)).1 (by decide), (h.2 1 (by decide)).2 (by decide)⟩

/-- C5: when the submitted org id is not one of the user's memberships
(the spec's `InvalidOrgSelection`), the action fails before any mutation:
the response is the membership-not-found error, the database is returned
unchanged, and no session is committed (the error result carries none). -/
theorem chooseOrg_nonmember_rejected
    (db : DB) (req : Request) (form : OrgFormData) (userId : String)
    (huser : requireUserId req = Except.ok userId)
    (horg : form.orgId ≠ "")
    (hmem : findMembership db userId form.orgId = none) :
    chooseOrgAction db req form = (ActionResult.membershipNotFound, db) := by
  simp [chooseOrgAction, huser, horg, hmem]

/-- C5 witness: `demoUser` submits org `C`, to which no membership exists. -/
theorem chooseOrg_nonmember_rejected_witness :
    chooseOrgAction demoDB demoReq
        { orgId := "C", redirectTo := none, rememberSelection := true } =
      (ActionResult.membershipNotFound, demoDB) :=
  chooseOrg_nonmember_rejected demoDB demoReq
    { orgId := "C", redirectTo := none, rememberSelection := true }
    "u1" rfl (by decide) rfl

/-- C6: after the org-selection action runs with remember = false for an
org the user belongs to, no membership of that user has
`isDefault = true`. -/
theorem chooseOrg_forget_clears_defaults
    (db : DB) (req : Request) (form : OrgFormData) (userId : String)
    (m0 : Membership)
    (huser : requireUserId req = Except.ok userId)
    (horg : form.orgId ≠ "")
    (hmem : findMembership db userId form.orgId = some m0)
    (hrem : form.rememberSelection = false) :
    ∀ m ∈ (chooseOrgAction db req form).2.memberships,
      m.userId = userId → m.isDefault = false := by
  have hact : (chooseOrgAction db req form).2 = dbClearDefaults db userId := by
    simp [chooseOrgAction, huser, horg, hmem, hrem]
  rw [hact]
  unfold dbClearDefaults
  intro m hm hid
  simp only [List.mem_map] at hm
  obtain ⟨a, -, rfl⟩ := hm
  by_cases hc : a.userId = userId
  · rw [if_pos hc]
  · rw [if_neg hc] at hid ⊢
    exact absurd hid hc

/-- C6 witness: the theorem applied to the concrete fixture, instantiated
at org `B`'s membership — the remembered default beforehand — which sits in
the post-action table with its flag cleared. -/
theorem chooseOrg_forget_clears_defaults_witness :
    ((chooseOrgAction demoDB demoReq demoFormForget).2.memberships.getD 1
        memA).isDefault = false :=
  chooseOrg_forget_clears_defaults demoDB demoReq demoFormForget
    "u1" memA rfl (by decide) rfl rfl _ (by decide) (by decide)

/-- C3 counterexample: a valid submission whose `redirectTo` field is
`/choose-org` itself. The claim says a submitted target equal to the
selection screen is normalized to the root, but the action performs no such
normalization: the response redirects straight back to `/choose-org`. -/
theorem C3_counterexample :
    (chooseOrgAction demoDB demoReq
        { orgId := "A", redirectTo := some "/choose-org",
          rememberSelection := false }).1 =
      ActionResult.redirectResponse "https://example.com/choose-org"
        { userId? := some "u1", organizationId? := some "A" } := by
  decide

/-- C3 (amended): for a valid submission the action redirects to the
submitted `redirectTo` resolved against the request origin, defaulting to
the application root when the field is absent, committing the session with
`organizationId` set; the `/choose-org` → `/` normalization instead happens
when the page renders the hidden `redirectTo` field from the URL query
parameter, so only a form bypassing the page can submit `/choose-org`. -/
theorem chooseOrg_redirect_destination
    (db : DB) (req : Request) (form : OrgFormData) (userId : String)
    (m0 : Membership)
    (huser : requireUserId req = Except.ok userId)
    (horg : form.orgId ≠ "")
    (hmem : findMembership db userId form.orgId = some m0) :
    (form.redirectTo = none →
      (chooseOrgAction db req form).1 =
        ActionResult.redirectResponse (req.url.origin ++ "/")
          { req.session with organizationId? := some form.orgId }) ∧
    (∀ r, form.redirectTo = some r → r.toList.head? = some '/' →
      (chooseOrgAction db req form).1 =
        ActionResult.redirectResponse (req.url.origin ++ r)
          { req.session with organizationId? := some form.orgId }) ∧
    hiddenRedirectToValue (some "/choose-org") = "/" := by
  refine ⟨?_, ?_, by decide⟩
  · intro hr
    simp [chooseOrgAction, huser, horg, hmem, hr, resolveUrl]
  · intro r hr hslash
    have hslash' : r.data.head? = some '/' := hslash
    simp [chooseOrgAction, huser, horg, hmem, hr, resolveUrl, hslash']

/-- C3 witness: the amended theorem at the concrete fixture, instantiating
the absent-`redirectTo` branch. -/
theorem chooseOrg_redirect_destination_witness :
    (chooseOrgAction demoDB demoReq demoFormForget).1 =
      ActionResult.redirectResponse ("https://example.com" ++ "/")
        { userId? := some "u1", organizationId? := some "A" } :=
  (chooseOrg_redirect_destination demoDB demoReq demoFormForget "u1" memA
    rfl (by decide) rfl).1 rfl

/-- C2 counterexample: `demoUser` has role `USER`; `requireAdmin` (that is,
`requireUserByRole` at `["ADMIN"]`, a non-empty set not containing `USER`)
fails, but with the `unauthorized` helper, not the `forbidden` helper the
claim names. -/
theorem C2_counterexample :
    requireAdmin demoDB demoReq =
        Except.error ThrownResponse.unauthorized ∧
      ThrownResponse.unauthorized ≠ ThrownResponse.forbidden := by
  exact ⟨rfl, by decide⟩

/-- C2 (amended): for a resolved non-superadmin user and a given non-empty
`allowedRoles` list not containing the user's role, `requireUserByRole`
fails with the `unauthorized` response (HTTP 401), not the `forbidden`
response. -/
theorem requireUserByRole_role_miss_unauthorized
    (db : DB) (req : Request) (roles : List UserRole) (userId : String)
    (user : User)
    (huser : requireUserId req = Except.ok userId)
    (hfind : findUser db userId = some user)
    (hsa : user.role ≠ UserRole.SUPERADMIN)
    (hne : roles ≠ [])
    (hmiss : user.role ∉ roles) :
    requireUserByRole db req (some roles) =
      Except.error ThrownResponse.unauthorized := by
  have hlen : roles.length > 0 := List.length_pos.mpr hne
  simp [requireUserByRole, huser, hfind, hsa, hlen, hmiss]

/-- C2 witness: the amended theorem at the concrete fixture
(`demoUser` with role `USER`, requested roles `["ADMIN"]`). -/
theorem requireUserByRole_role_miss_unauthorized_witness :
    requireUserByRole demoDB demoReq (some [UserRole.ADMIN]) =
      Except.error ThrownResponse.unauthorized :=
  requireUserByRole_role_miss_unauthorized demoDB demoReq [UserRole.ADMIN]
    "u1" demoUser rfl rfl (by decide) (by decide) (by decide)

/-- C4: a resolved user whose global role is `SUPERADMIN` passes
`requireUserByRole` whatever the `allowedRoles` argument is — absent, empty,
or a non-empty set not containing `SUPERADMIN`. -/
theorem requireUserByRole_superadmin_override
    (db : DB) (req : Request) (userId : String) (user : User)
    (allowedRoles : Option (List UserRole))
    (huser : requireUserId req = Except.ok userId)
    (hfind : findUser db userId = some user)
    (hsa : user.role = UserRole.SUPERADMIN) :
    requireUserByRole db req allowedRoles = Except.ok user := by
  simp [requireUserByRole, huser, hfind, hsa]

/-- C4 witness: the superadmin fixture passes `requireAdmin`'s set
`["ADMIN"]`, which does not contain `SUPERADMIN`. -/
theorem requireUserByRole_superadmin_override_witness :
    requireUserByRole demoDB demoReqSuper (some [UserRole.ADMIN]) =
      Except.ok demoSuper :=
  requireUserByRole_superadmin_override demoDB demoReqSuper "u2" demoSuper
    (some [UserRole.ADMIN]) rfl rfl rfl

/-- C7: `getUser` returns `null` when the session carries no `userId`; when
the session carries a `userId` that resolves to no stored user it never
returns `null`, and instead throws the logout response: a redirect to
`/login` whose headers destroy the session cookie. -/
theorem getUser_null_vs_forced_logout (db : DB) (req : Request) :
    (req.session.userId? = none → getUser db req = Except.ok none) ∧
      ∀ uid, req.session.userId? = some uid → findUser db uid = none →
        getUser db req =
          Except.error (ThrownResponse.redirect "/login" true) := by
  constructor
  · intro h
    simp [getUser, getUserId, h]
  · intro uid h hf
    simp [getUser, getUserId, h, hf, logoutResponse]

/-- C7 witness: the theorem at an anonymous request and at a request whose
session user id resolves to no stored user. -/
theorem getUser_null_vs_forced_logout_witness :
    getUser demoDB demoReqAnon = Except.ok none ∧
      getUser demoDB demoReqDangling =
        Except.error (ThrownResponse.redirect "/login" true) :=
  ⟨(getUser_null_vs_forced_logout demoDB demoReqAnon).1 rfl,
    (getUser_null_vs_forced_logout demoDB demoReqDangling).2 "ghost" rfl rfl⟩

/-- C8: on a request with no session user id, `requireUserId` throws a
redirect to `/login` whose `redirectTo` query parameter form-url-encodes the
request's pathname (the default for the parameter), and the encoding maps
`/accounts/42` to `%2Faccounts%2F42`. -/
theorem requireUserId_unauthenticated_redirect
    (req : Request) (h : req.session.userId? = none) :
    requireUserId req =
        Except.error (ThrownResponse.redirect
          ("/login?redirectTo=" ++ formUrlEncode req.url.pathname) false) ∧
      formUrlEncode "/accounts/42" = "%2Faccounts%2F42" := by
  refine ⟨?_, by decide⟩
  have hser : "/login?" ++
      serializeSearchParams [("redirectTo", req.url.pathname)] =
      "/login?redirectTo=" ++ formUrlEncode req.url.pathname := by
    unfold serializeSearchParams
    simp only [List.map]
    rw [show String.intercalate "&"
        [formUrlEncode "redirectTo" ++ "=" ++ formUrlEncode req.url.pathname] =
        formUrlEncode "redirectTo" ++ "=" ++ formUrlEncode req.url.pathname
      from rfl]
    rw [show formUrlEncode "redirectTo" = "redirectTo" from rfl]
    rw [show ("redirectTo" : String) ++ "=" = "redirectTo=" from rfl]
    rw [← String.append_assoc]
    exact congrArg (fun s => s ++ formUrlEncode req.url.pathname) rfl
  simp [requireUserId, requireUserIdWith, getUserId, h, hser]

/-- C8 witness: the theorem at the anonymous request for `/accounts/42`,
whose redirect is exactly `/login?redirectTo=%2Faccounts%2F42`. -/
theorem requireUserId_unauthenticated_redirect_witness :
    (requireUserId demoReqAnon =
        Except.error (ThrownResponse.redirect
          ("/login?redirectTo=" ++ formUrlEncode demoReqAnon.url.pathname)
          false) ∧
      formUrlEncode "/accounts/42" = "%2Faccounts%2F42") ∧
      requireUserId demoReqAnon =
        Except.error (ThrownResponse.redirect
          "/login?redirectTo=%2Faccounts%2F42" false) :=
  ⟨requireUserId_unauthenticated_redirect demoReqAnon rfl,
    ((requireUserId_unauthenticated_redirect demoReqAnon rfl).1.trans rfl)⟩

/-- C10: when the session carries a (non-empty) user id that resolves to no
stored user, `requireUserByRole` — for every `allowedRoles` argument, and
hence `requireUser`, `requireAdmin` and `requireSuperAdmin` — fails with
the `forbidden` response; it neither redirects to login nor destroys the
session the way `getUser`'s forced-logout path does. -/
theorem requireUserByRole_dangling_user_forbidden
    (db : DB) (req : Request) (uid : String)
    (hsess : req.session.userId? = some uid)
    (hne : uid ≠ "")
    (hfind : findUser db uid = none) :
    (∀ allowedRoles, requireUserByRole db req allowedRoles =
        Except.error ThrownResponse.forbidden) ∧
      requireUser db req = Except.error ThrownResponse.forbidden ∧
      requireAdmin db req = Except.error ThrownResponse.forbidden ∧
      requireSuperAdmin db req = Except.error ThrownResponse.forbidden := by
  have hreq : requireUserId req = Except.ok uid := by
    simp [requireUserId, requireUserIdWith, getUserId, hsess, hne]
  have hmain : ∀ allowedRoles, requireUserByRole db req allowedRoles =
      Except.error ThrownResponse.forbidden := by
    intro allowedRoles
    simp [requireUserByRole, hreq, hfind]
  exact ⟨hmain, hmain none, hmain (some [UserRole.ADMIN]),
    hmain (some [UserRole.SUPERADMIN])⟩

/-- C10 witness: the theorem at the request whose session user id `ghost`
resolves to no stored user. -/
theorem requireUserByRole_dangling_user_forbidden_witness :
    requireUser demoDB demoReqDangling =
        Except.error ThrownResponse.forbidden ∧
      requireAdmin demoDB demoReqDangling =
          Except.error ThrownResponse.forbidden ∧
        requireSuperAdmin demoDB demoReqDangling =
          Except.error ThrownResponse.forbidden :=
  (requireUserByRole_dangling_user_forbidden demoDB demoReqDangling "ghost"
    rfl (by decide) rfl).2

/-- A stored organization for the mail fixtures. -/
def demoOrg : Organization :=
  { id := "org1", name := "Alliance", host := "example.org",
    subdomain := some "app", replyToEmail := "no-reply" }

/-- A stored contact for the mail fixtures. -/
def demoContact : ContactRecord :=
  { username := "person@example.org", firstName := "Pat" }

/-- A mail environment whose lookups succeed but whose send step rejects. -/
def demoMailEnvSendFails : MailEnv :=
  { orgs := [demoOrg], contacts := [demoContact], sendSucceeds := false }

/-- C9 counterexample: calling `sendPasswordResetEmail` for an organization
id with no stored organization. The lookup runs before the `try` block, so
the failure escapes to the caller as a thrown exception instead of being
captured and returned as an `{ error }` value. -/
theorem C9_counterexample :
    sendPasswordResetEmail
        { orgs := [], contacts := [], sendSucceeds := true }
        "person@example.org" "token123" "org1" =
      MailOutcome.thrown MailError.orgNotFound := by
  rfl

/-- C9 (amended): a failure of the `sendEmail` step itself is always
captured and returned as `{ error }`: once their pre-`try` lookups succeed,
`sendPasswordResetEmail` and `sendPasswordSetupEmail` never throw, and
`sendReimbursementRequestUpdateEmail` never throws for any environment (its
`try` wraps the organization lookup too); but the first two functions'
organization/user lookups run before the `try` and their failures propagate
to the caller. -/
theorem mail_send_failures_captured
    (env : MailEnv) (email token orgId : String) (org : Organization)
    (contact : ContactRecord)
    (horg : findOrg env orgId = some org)
    (hcontact : findContactByUsername env email = some contact) :
    (sendPasswordResetEmail env email token orgId).isThrown = false ∧
      (sendPasswordSetupEmail env email token orgId).isThrown = false ∧
        ∀ env2 email2 orgId2,
          (sendReimbursementRequestUpdateEmail env2 email2
              orgId2).isThrown = false := by
  refine ⟨?_, ?_, ?_⟩
  · cases hs : env.sendSucceeds <;>
      simp [sendPasswordResetEmail, horg, hs, MailOutcome.isThrown]
  · cases hs : env.sendSucceeds <;>
      simp [sendPasswordSetupEmail, horg, hcontact, hs, MailOutcome.isThrown]
  · intro env2 email2 orgId2
    cases hfo : findOrg env2 orgId2 <;>
      cases hs : env2.sendSucceeds <;>
        simp [sendReimbursementRequestUpdateEmail, hfo, hs,
          MailOutcome.isThrown]

/-- C9 witness: the amended theorem at an environment whose lookups succeed
and whose send step rejects, with the reimbursement sender also
instantiated at an environment missing the organization. -/
theorem mail_send_failures_captured_witness :
    (sendPasswordResetEmail demoMailEnvSendFails "person@example.org"
        "token123" "org1").isThrown = false ∧
      (sendPasswordSetupEmail demoMailEnvSendFails "person@example.org"
          "token123" "org1").isThrown = false ∧
        (sendReimbursementRequestUpdateEmail
            { orgs := [], contacts := [], sendSucceeds := true }
            "person@example.org" "org1").isThrown = false :=
  have h := mail_send_failures_captured demoMailEnvSendFails
    "person@example.org" "token123" "org1" demoOrg demoContact rfl rfl
  ⟨h.1, h.2.1,
    h.2.2 { orgs := [], contacts := [], sendSucceeds := true }
      "person@example.org" "org1"⟩

end App
